import Mathlib

/-!
Verification of the postshortly status-update service.

The Go sources are shallowly embedded below.  Go strings are byte
sequences, modelled as `List Nat`; machine integers stay well within
64 bits everywhere in this program, so `Nat`/`Int` are used directly.
External collaborators are modelled at their interfaces:

* `crypto/ed25519.Verify` is a pure boolean oracle of
  (public key, message, signature) and is kept as an explicit `verify`
  parameter of the validation pipeline;
* the bluemonday HTML sanitizer is kept as an explicit `sanitize`
  parameter, with a small concrete model `sanitizeUGC` (see its
  doc comment) used to instantiate counterexamples;
* the sqlite store is modelled as the append-only list it is used as
  (the core never deletes, so `AUTOINCREMENT` assigns `length + 1`);
* the `golang.org/x/time/rate` token bucket, whose source is not part
  of this repository, is modelled from the spec (see `TokenBucket`).
-/

namespace Postshortly

/-- Go strings and byte slices are byte sequences; both are modelled as
lists of bytes. -/
abbrev ByteStr := List Nat

/-- Constant `BodyMaxSize` from main.go. -/
def BodyMaxSize : Nat := 256

/-- Constant `LinkMaxSize` from main.go. -/
def LinkMaxSize : Nat := 256

/-- Constant `PubkeyMaxSize = ed25519.PublicKeySize` from main.go. -/
def PubkeyMaxSize : Nat := 32

/-- Constant `SignatureMaxSize = ed25519.SignatureSize` from main.go. -/
def SignatureMaxSize : Nat := 64

/-- The `StatusUpdate` record (current version: `pubkey` and `signature`
hold hex-encoded text, per the sqlite schema's 64- and 128-character
CHECK constraints). -/
structure StatusUpdate where
  id : Nat
  timestamp : Int
  body : ByteStr
  link : ByteStr
  pubkey : ByteStr
  signature : ByteStr
deriving DecidableEq

/-- Value of one hex digit, as `encoding/hex` accepts it
('0'-'9', 'a'-'f', 'A'-'F'). -/
def hexDigitValue (c : Nat) : Option Nat :=
  if 48 ≤ c ∧ c ≤ 57 then some (c - 48)
  else if 97 ≤ c ∧ c ≤ 102 then some (c - 87)
  else if 65 ≤ c ∧ c ≤ 70 then some (c - 55)
  else none

/-- `encoding/hex.DecodeString`: fails on odd length or a non-hex
character, otherwise pairs digits into bytes. -/
def hexDecode : ByteStr → Option ByteStr
  | [] => some []
  | [_] => none
  | hi :: lo :: rest =>
    match hexDigitValue hi, hexDigitValue lo, hexDecode rest with
    | some h, some l, some r => some ((16 * h + l) :: r)
    | _, _, _ => none

/-- The distinct rejection reasons produced by `validateStatusUpdate`
in api.go, in source order. -/
inductive ValidationError where
  | bodyEmpty
  | bodyTooBig
  | linkTooBig
  | pubkeyLen
  | signatureLen
  | pubkeyFormat
  | signatureFormat
  | unauthorized
deriving DecidableEq

/-- `validateStatusUpdate` from api.go.  `sanitize` stands for
`bluemonday.UGCPolicy().Sanitize` and `verify` for `ed25519.Verify`
(both external libraries).  Note that the sanitized `body`/`link` are
local to this function, exactly as in the Go source, where `update` is
passed by value. -/
def validateStatusUpdate (sanitize : ByteStr → ByteStr)
    (verify : ByteStr → ByteStr → ByteStr → Bool)
    (update : StatusUpdate) : Except ValidationError Unit :=
  let body := sanitize update.body
  let link := sanitize update.link
  if body = [] then Except.error ValidationError.bodyEmpty
  else if body.length > BodyMaxSize then Except.error ValidationError.bodyTooBig
  else if link ≠ [] ∧ link.length > LinkMaxSize then Except.error ValidationError.linkTooBig
  else if update.pubkey.length ≠ PubkeyMaxSize * 2 then Except.error ValidationError.pubkeyLen
  else if update.signature.length ≠ SignatureMaxSize * 2 then
    Except.error ValidationError.signatureLen
  else
    match hexDecode update.pubkey with
    | none => Except.error ValidationError.pubkeyFormat
    | some pubkey =>
      match hexDecode update.signature with
      | none => Except.error ValidationError.signatureFormat
      | some signature =>
        if verify pubkey (pubkey ++ body ++ link) signature = true then Except.ok ()
        else Except.error ValidationError.unauthorized

/-- Byte sequence of the literal text `<script>`. -/
def scriptOpen : ByteStr := [60, 115, 99, 114, 105, 112, 116, 62]

/-- Byte sequence of the literal text `</script>`. -/
def scriptClose : ByteStr := [60, 47, 115, 99, 114, 105, 112, 116, 62]

/-- Drops bytes up to and including the first `</script>` occurrence. -/
def dropToClose : ByteStr → ByteStr
  | [] => []
  | c :: rest =>
    if scriptClose.isPrefixOf (c :: rest) then (c :: rest).drop scriptClose.length
    else dropToClose rest

/-- Helper for `sanitizeUGC`; the fuel starts at the input length and at
least one byte is consumed per step, so the fuel-exhausted branch is
never reached. -/
def sanitizeAux : Nat → ByteStr → ByteStr
  | _, [] => []
  | 0, l => l
  | fuel + 1, c :: rest =>
    if scriptOpen.isPrefixOf (c :: rest) then
      sanitizeAux fuel (dropToClose ((c :: rest).drop scriptOpen.length))
    else c :: sanitizeAux fuel rest

/-- Modelled from the spec: the fixed allow-list HTML sanitizer
(`bluemonday.UGCPolicy().Sanitize`, an external library whose source is
not part of this repository).  The spec describes it as "stripping
disallowed HTML/script content using a fixed allow-list sanitizer".
`script` elements are disallowed under the UGC policy and are removed
together with their content; the model implements exactly that
behaviour (removal of `<script>...</script>` spans) and is the identity
on script-free plain text, which is all the theorems below rely on. -/
def sanitizeUGC (s : ByteStr) : ByteStr := sanitizeAux s.length s

/-- The statistics record from stats.go.  The `average_posts_per_pubkey`
field is a Go `float64`; the values this program produces for it are
covered by `GoFloat` below. -/
structure ProlificPubkey where
  pubkey : ByteStr
  count : Nat
deriving DecidableEq

/-- Result values of the Go `float64` division performed by
`getStatistics`.  IEEE 754 fixes the zero-denominator cases exactly:
`0.0/0.0` is NaN and `x/0.0` is +Inf for `x > 0`.  A nonzero
denominator yields the (here idealized as exact) quotient. -/
inductive GoFloat where
  | nan
  | posInf
  | val (q : ℚ)
deriving DecidableEq

/-- Go's `float64(n) / float64(u)` for the nonnegative integers this
program divides. -/
def goDivNat (n u : Nat) : GoFloat :=
  if u = 0 then (if n = 0 then GoFloat.nan else GoFloat.posInf)
  else GoFloat.val ((n : ℚ) / (u : ℚ))

/-- The `Statistics` record from stats.go (`id`/`timestamp` are the
sqlite columns, zero until the row is persisted). -/
structure Statistics where
  id : Nat
  timestamp : Int
  totalPosts : Nat
  uniquePubkeys : Nat
  successfulRequests : Nat
  failedRequests : Nat
  totalRequests : Nat
  averagePostsPerPubkey : GoFloat
  mostRecentPostTimestamp : Int
  oldestPostTimestamp : Int
  rateLimitRequestsPerSecond : Nat
  bodyMaxSize : Nat
  linkMaxSize : Nat
  pubkeyMaxSize : Nat
  signatureMaxSize : Nat
  topProlificPubkeys : List ProlificPubkey
deriving DecidableEq

/-- One step of the `pubkeyPostCounts[string(update.Pubkey)]++` loop in
`getStatistics` (stats.go): bump the count of `k`, appending a fresh
entry when `k` is new.  The association list keeps first-seen order and
is the canonical contents of the Go map. -/
def bumpCount : List (ByteStr × Nat) → ByteStr → List (ByteStr × Nat)
  | [], k => [(k, 1)]
  | (k', v) :: rest, k =>
    if k' = k then (k', v + 1) :: rest else (k', v) :: bumpCount rest k

/-- The per-key post counts that `getStatistics` builds from the stored
updates, as an association list in first-seen order. -/
def pubkeyPostCountsOf (updates : List StatusUpdate) : List (ByteStr × Nat) :=
  updates.foldl (fun acc u => bumpCount acc u.pubkey) []

/-- Comparator of `getTopProlificPubkeys`: `ss[i].Value > ss[j].Value`,
as the non-strict relation a sort orders by (count descending). -/
def countGE (p q : ByteStr × Nat) : Prop := q.2 ≤ p.2

instance : DecidableRel countGE := fun p q => decidable_of_iff (q.2 ≤ p.2) Iff.rfl

instance : IsTotal (ByteStr × Nat) countGE := ⟨fun p q => (Nat.le_total q.2 p.2).imp id id⟩

instance : IsTrans (ByteStr × Nat) countGE := ⟨fun _ _ _ h1 h2 => Nat.le_trans h2 h1⟩

/-- `getTopProlificPubkeys` from stats.go.  The Go function ranges over
the count map — whose iteration order is unspecified and is passed here
as the explicit parameter `iter` (any permutation of the map's entries
is a possible iteration order) — sorts the slice by count descending
with `sort.Slice`, and keeps the first 10 entries.  The sort is
modelled as an insertion sort, which on ties keeps the order of `iter`;
this matches Go's `sort.Slice` on small slices, and no theorem below
relies on a particular tie order beyond sortedness and permutation. -/
def getTopProlificPubkeys (iter : List (ByteStr × Nat)) : List ProlificPubkey :=
  ((List.insertionSort countGE iter).take 10).map (fun kv => ProlificPubkey.mk kv.1 kv.2)

/-- The top-prolific selection as the spec words it: "a stable sort on
(count descending, first-seen index ascending)" over the per-key
counts, truncated to 10 — i.e., a stable descending-by-count sort of
the counts listed in first-seen order. -/
def topProlificPubkeysSpec (firstSeen : List (ByteStr × Nat)) : List ProlificPubkey :=
  ((List.insertionSort countGE firstSeen).take 10).map (fun kv => ProlificPubkey.mk kv.1 kv.2)

/-- `getStatistics` from stats.go.  `allUpdates` is the result of
`getAllStatusUpdatesFromDB` (ordered newest first), `iter` is the
iteration order of the count map handed to `getTopProlificPubkeys`, and
`rateLimit` is `int(limiter.Limit())`. -/
def getStatistics (iter : List (ByteStr × Nat)) (allUpdates : List StatusUpdate)
    (successfulRequests failedRequests rateLimit : Nat) : Statistics :=
  let counts := pubkeyPostCountsOf allUpdates
  { id := 0
    timestamp := 0
    totalPosts := allUpdates.length
    uniquePubkeys := counts.length
    successfulRequests := successfulRequests
    failedRequests := failedRequests
    totalRequests := successfulRequests + failedRequests
    averagePostsPerPubkey := goDivNat allUpdates.length counts.length
    mostRecentPostTimestamp := match allUpdates.head? with | none => 0 | some u => u.timestamp
    oldestPostTimestamp := match allUpdates.getLast? with | none => 0 | some u => u.timestamp
    rateLimitRequestsPerSecond := rateLimit
    bodyMaxSize := BodyMaxSize
    linkMaxSize := LinkMaxSize
    pubkeyMaxSize := PubkeyMaxSize
    signatureMaxSize := SignatureMaxSize
    topProlificPubkeys := getTopProlificPubkeys iter }

/-- The average-posts-per-key field as the spec words it: "average =
total posts / unique key count, undefined (must not divide by zero)
when unique key count is 0 — defined as 0 in that case". -/
def averagePostsPerPubkeySpec (total unique : Nat) : GoFloat :=
  if unique = 0 then GoFloat.val 0 else goDivNat total unique

/-- The shared mutable state of the service: the stored updates (the
sqlite `status_updates` table, insertion order), the persisted
statistics rows (the `statistics` table, insertion order), and the
running request counters. -/
structure ServerState where
  updates : List StatusUpdate
  statsRows : List Statistics
  successfulRequests : Nat
  failedRequests : Nat
deriving DecidableEq

/-- The state of a freshly started service over a fresh store. -/
def initialState : ServerState :=
  { updates := [], statsRows := [], successfulRequests := 0, failedRequests := 0 }

/-- Per-request environment of `createStatusUpdate`: the admission-gate
verdict `allow` (`limiter.Allow()`), the JSON decode result `decoded`,
the wall-clock reading `now` (`time.Now().UnixNano()`), and whether the
storage collaborator's insert succeeds (`dbOk`). -/
structure RequestEnv where
  allow : Bool
  decoded : Option StatusUpdate
  now : Int
  dbOk : Bool
deriving DecidableEq

/-- The HTTP outcomes of `createStatusUpdate`: 200 with the stored
update, 400 (decode or validation), 429, or 500. -/
inductive Response where
  | ok (u : StatusUpdate)
  | invalidPayload
  | badRequest (e : ValidationError)
  | rateLimited
  | internalError
deriving DecidableEq

/-- Every outcome of the ingestion pipeline other than a 200. -/
def Response.isRejection : Response → Bool
  | Response.ok _ => false
  | _ => true

/-- `createStatusUpdate` from api.go composed with `addStatusUpdate`
from database.go.  On admission the insert assigns the next id: sqlite
`AUTOINCREMENT` yields `max + 1`, which on this append-only table is
`length + 1`.  Every rejection goes through `handleError`, which
increments `failedRequests`. -/
def createStatusUpdate (sanitize : ByteStr → ByteStr)
    (verify : ByteStr → ByteStr → ByteStr → Bool)
    (s : ServerState) (env : RequestEnv) : ServerState × Response :=
  if env.allow = false then
    ({ s with failedRequests := s.failedRequests + 1 }, Response.rateLimited)
  else
    match env.decoded with
    | none => ({ s with failedRequests := s.failedRequests + 1 }, Response.invalidPayload)
    | some update =>
      match validateStatusUpdate sanitize verify update with
      | Except.error e =>
        ({ s with failedRequests := s.failedRequests + 1 }, Response.badRequest e)
      | Except.ok _ =>
        if env.dbOk = false then
          ({ s with failedRequests := s.failedRequests + 1 }, Response.internalError)
        else
          let stored := { update with timestamp := env.now, id := s.updates.length + 1 }
          ({ s with updates := s.updates ++ [stored],
                    successfulRequests := s.successfulRequests + 1 },
           Response.ok stored)

/-- Serialized processing of a sequence of ingestion requests (the
mutex in the Go source makes the mutations of consecutive requests
appear in some total order). -/
def runRequests (sanitize : ByteStr → ByteStr)
    (verify : ByteStr → ByteStr → ByteStr → Bool) :
    ServerState → List RequestEnv → ServerState
  | s, [] => s
  | s, env :: rest => runRequests sanitize verify (createStatusUpdate sanitize verify s env).1 rest

/-- Outcomes of `getStatusUpdatesByPubkey` from api.go: 400, 500, or
200 with the matching updates. -/
inductive KeyLookupResult where
  | badKey
  | dbError
  | ok (updates : List StatusUpdate)
deriving DecidableEq

/-- `getStatusUpdatesByPubkeyFromDB` from database.go:
`WHERE pubkey = ? ORDER BY timestamp DESC` over the stored updates,
whose timestamps are non-decreasing in insertion order, realized as
filter-then-reverse. -/
def getStatusUpdatesByPubkeyFromDB (db : List StatusUpdate) (pubkey : ByteStr) :
    List StatusUpdate :=
  (db.filter (fun u => u.pubkey == pubkey)).reverse

/-- `getStatusUpdatesByPubkey` from api.go: the handler rejects with
400 exactly when the path parameter's length differs from
`PubkeyMaxSize*2`, then runs the query (`dbOk` models the query
succeeding). -/
def getStatusUpdatesByPubkey (dbOk : Bool) (db : List StatusUpdate) (pubkeyStr : ByteStr) :
    KeyLookupResult :=
  if pubkeyStr.length ≠ PubkeyMaxSize * 2 then KeyLookupResult.badKey
  else if dbOk = false then KeyLookupResult.dbError
  else KeyLookupResult.ok (getStatusUpdatesByPubkeyFromDB db pubkeyStr)

/-- `updateStatisticsInDB` from database.go: insert a statistics row. -/
def updateStatisticsInDB (rows : List Statistics) (stats : Statistics) : List Statistics :=
  rows ++ [stats]

/-- `getLatestStatisticsFromDB` from database.go:
`ORDER BY timestamp DESC LIMIT 1` over rows inserted with
non-decreasing timestamps is the last inserted row; `sqlx.Get` reports
`sql.ErrNoRows` when the table is empty, modelled as `none`. -/
def getLatestStatisticsFromDB (rows : List Statistics) : Option Statistics :=
  rows.getLast?

/-- Outcomes of `getStatisticsHandler` from api.go. -/
inductive StatsResponse where
  | ok (stats : Statistics)
  | internalError
deriving DecidableEq

/-- `getStatisticsHandler` from api.go: a failed read of the latest
persisted snapshot is surfaced via `handleError` as a 500. -/
def getStatisticsHandler (rows : List Statistics) : StatsResponse :=
  match getLatestStatisticsFromDB rows with
  | none => StatsResponse.internalError
  | some stats => StatsResponse.ok stats

/-- Modelled from the spec: the Admission Gate
(`rate.NewLimiter(1, 1)` with `Allow()` from `golang.org/x/time/rate`,
an external library whose source is not part of this repository).  The
spec: "A single global token bucket: capacity 1 token, refill rate 1
token/second"; `TryAcquire` is non-blocking and a deny must not
consume a token.  Times are in seconds, as rationals. -/
structure TokenBucket where
  tokens : ℚ
  lastTime : ℚ
deriving DecidableEq

/-- Bucket capacity: 1 token. -/
def bucketCapacity : ℚ := 1

/-- Refill rate: 1 token per second. -/
def bucketRefillRate : ℚ := 1

/-- A fresh (full) bucket created at time `t`. -/
def freshBucket (t : ℚ) : TokenBucket := { tokens := bucketCapacity, lastTime := t }

/-- Modelled from the spec: `TryAcquire` at time `now` refills by the
elapsed time (capped at capacity), then grants and consumes one token
when a full token is available, else denies without consuming.  It is
a total function: it returns immediately and never queues or sleeps. -/
def tryAcquire (b : TokenBucket) (now : ℚ) : TokenBucket × Bool :=
  let refilled := min bucketCapacity (b.tokens + (now - b.lastTime) * bucketRefillRate)
  if 1 ≤ refilled then ({ tokens := refilled - 1, lastTime := now }, true)
  else ({ tokens := refilled, lastTime := now }, false)

/-! Concrete example data used by the witnesses and counterexamples. -/

/-- A 64-character hex key text: 64 times `a`. -/
def keyA : ByteStr := List.replicate 64 97

/-- A second 64-character hex key text: 64 times `b`. -/
def keyB : ByteStr := List.replicate 64 98

/-- A 64-character path parameter that is not valid hex: 64 times `z`. -/
def zKey : ByteStr := List.replicate 64 122

/-- The bytes of `keyA` after hex decoding (32 times `0xaa`). -/
def pkA : ByteStr := List.replicate 32 170

/-- A 128-character hex signature text: 128 times `a`. -/
def sigHexA : ByteStr := List.replicate 128 97

/-- The bytes of `sigHexA` after hex decoding (64 times `0xaa`). -/
def sigA : ByteStr := List.replicate 64 170

/-- A stored update under `keyA` (body `h`). -/
def updA : StatusUpdate :=
  { id := 1, timestamp := 1, body := [104], link := [], pubkey := keyA, signature := sigHexA }

/-- A stored update under `keyB` (body `h`). -/
def updB : StatusUpdate :=
  { id := 2, timestamp := 2, body := [104], link := [], pubkey := keyB, signature := sigHexA }

/-- A plain candidate update (body `hi`, no link) under `keyA`. -/
def plainUpdate : StatusUpdate :=
  { id := 0, timestamp := 0, body := [104, 105], link := [],
    pubkey := keyA, signature := sigHexA }

/-- A candidate update whose body `hi<script>x</script>` is altered by
sanitization (to `hi`). -/
def scriptedUpdate : StatusUpdate :=
  { id := 0, timestamp := 0,
    body := [104, 105] ++ scriptOpen ++ [120] ++ scriptClose,
    link := [], pubkey := keyA, signature := sigHexA }

/-- A candidate update with a 257-byte body. -/
def longBodyUpdate : StatusUpdate :=
  { id := 0, timestamp := 0, body := List.replicate 257 97, link := [],
    pubkey := keyA, signature := sigHexA }

/-- The verification oracle that accepts; it stands in for
`ed25519.Verify` on a request whose signature the submitter computed
correctly over the message the server checks. -/
def verifyAccept : ByteStr → ByteStr → ByteStr → Bool := fun _ _ _ => true

/-- Request environment of an admitted submission of `scriptedUpdate`. -/
def scriptedEnv : RequestEnv :=
  { allow := true, decoded := some scriptedUpdate, now := 42, dbOk := true }

/-- Request environment denied by the admission gate. -/
def deniedEnv : RequestEnv :=
  { allow := false, decoded := some plainUpdate, now := 0, dbOk := true }

/-- Request environment of an admitted submission of `plainUpdate` at
time 5. -/
def plainEnvAt5 : RequestEnv :=
  { allow := true, decoded := some plainUpdate, now := 5, dbOk := true }

/-- Request environment of an admitted submission of `plainUpdate` at
time 7. -/
def plainEnvAt7 : RequestEnv :=
  { allow := true, decoded := some plainUpdate, now := 7, dbOk := true }

/-! Theorems. -/

/-- C1 (counterexample): the top-prolific list is not determined by the
per-key counts and their first-seen order.  The map built from inserting
`updA` (key `keyA`) then `updB` (key `keyB`) holds `{keyA ↦ 1, keyB ↦ 1}`;
`[(keyB, 1), (keyA, 1)]` is a permutation of those entries, hence a
possible iteration order of the Go map.  On that iteration order the code
returns `[keyB, keyA]`, while the claimed stable sort over first-seen
order returns `[keyA, keyB]`. -/
theorem topProlific_tie_breaking_counterexample :
    List.Perm [(keyB, 1), (keyA, 1)] (pubkeyPostCountsOf [updA, updB]) ∧
    getTopProlificPubkeys [(keyB, 1), (keyA, 1)]
      ≠ topProlificPubkeysSpec (pubkeyPostCountsOf [updA, updB]) := by
  constructor
  · decide
  · decide

/-- C1 (amended): for every iteration order of the count map, the
top-prolific list is the first at most 10 entries of some
descending-by-count sorted permutation of the per-key counts; the order
of tied entries follows the map's arbitrary iteration order, not the
keys' first-seen order. -/
theorem getTopProlificPubkeys_sorted_take_ten (iter : List (ByteStr × Nat)) :
    ∃ l : List (ByteStr × Nat), List.Perm l iter ∧ List.Sorted countGE l ∧
      getTopProlificPubkeys iter = (l.take 10).map (fun kv => ProlificPubkey.mk kv.1 kv.2) :=
  ⟨List.insertionSort countGE iter, List.perm_insertionSort countGE iter,
    List.sorted_insertionSort countGE iter, rfl⟩

/-- C2: on an empty store (no updates, hence no keys) `getStatistics`
computes `float64(0)/float64(0)`, which is NaN — not the 0 the spec
requires; no division-by-zero guard exists in the code. -/
theorem averagePostsPerPubkey_empty_store_nan :
    (getStatistics [] [] 0 0 1).averagePostsPerPubkey = GoFloat.nan ∧
    averagePostsPerPubkeySpec 0 0 = GoFloat.val 0 ∧
    GoFloat.nan ≠ GoFloat.val 0 := by
  refine ⟨rfl, rfl, ?_⟩
  intro h
  exact GoFloat.noConfusion h

/-- C3: an admitted update whose body is altered by sanitization is
persisted with its raw body, not the sanitized body the signature was
verified over.  `scriptedUpdate` (body `hi<script>x</script>`, which
sanitizes to `hi`) is admitted — `verifyAccept` stands for
`ed25519.Verify` on a submission correctly signed over the message the
server checks — yet the stored record keeps the raw body, because the
Go source sanitizes a by-value copy inside `validateStatusUpdate` and
the caller stores the original. -/
theorem stored_body_not_sanitized :
    (createStatusUpdate sanitizeUGC verifyAccept initialState scriptedEnv).2
      = Response.ok { scriptedUpdate with timestamp := 42, id := 1 } ∧
    sanitizeUGC scriptedUpdate.body = [104, 105] ∧
    ({ scriptedUpdate with timestamp := 42, id := 1 } : StatusUpdate).body
      ≠ sanitizeUGC scriptedUpdate.body := by
  refine ⟨by decide, by decide, by decide⟩

/-- C6 (counterexample): a 64-character path parameter that is not
valid hex (64 times `z`) is not rejected: the handler only checks the
length, and the query then succeeds with an empty 200 response instead
of the claimed 400. -/
theorem lookup_nonhex_key_success_counterexample :
    hexDecode zKey = none ∧
    getStatusUpdatesByPubkey true [] zKey = KeyLookupResult.ok [] := by
  constructor
  · decide
  · decide

/-- C6 (amended): the read-by-key operation returns the format
rejection exactly when the path parameter's length differs from 64
characters; hex validity is never checked, so a correctly-sized
non-hex string flows into the store query and yields a success
response (with the empty list, as no stored key can match it). -/
theorem lookup_badKey_iff_length (dbOk : Bool) (db : List StatusUpdate) (s : ByteStr) :
    getStatusUpdatesByPubkey dbOk db s = KeyLookupResult.badKey ↔
      s.length ≠ PubkeyMaxSize * 2 := by
  unfold getStatusUpdatesByPubkey
  split
  · simp_all
  · split <;> simp_all

/-- C7: from a fresh (full) bucket, the first acquire at time `t0` is
granted; an immediately following attempt (still at `t0`) is denied and
leaves the token count unchanged; a further attempt one full refill
period later (`t0 + 1`) is granted again.  `tryAcquire` is a total
function: a denial returns immediately and never blocks or sleeps. -/
theorem admission_gate_grant_deny_refill (t0 : ℚ) :
    (tryAcquire (freshBucket t0) t0).2 = true ∧
    (tryAcquire (tryAcquire (freshBucket t0) t0).1 t0).2 = false ∧
    (tryAcquire (tryAcquire (freshBucket t0) t0).1 t0).1.tokens
      = (tryAcquire (freshBucket t0) t0).1.tokens ∧
    (tryAcquire (tryAcquire (tryAcquire (freshBucket t0) t0).1 t0).1 (t0 + 1)).2 = true := by
  have h1 : tryAcquire (freshBucket t0) t0 = ({ tokens := 0, lastTime := t0 }, true) := by
    unfold tryAcquire freshBucket bucketCapacity bucketRefillRate
    norm_num
  have h2 : tryAcquire { tokens := 0, lastTime := t0 } t0
      = ({ tokens := 0, lastTime := t0 }, false) := by
    unfold tryAcquire bucketCapacity bucketRefillRate
    norm_num
  have h3 : tryAcquire { tokens := 0, lastTime := t0 } (t0 + 1)
      = ({ tokens := 0, lastTime := t0 + 1 }, true) := by
    unfold tryAcquire bucketCapacity bucketRefillRate
    norm_num
  rw [h1, h2]
  exact ⟨rfl, rfl, rfl, by rw [h3]⟩

/-- C10: on a fresh store, before the periodic task has persisted any
snapshot, the statistics table is empty, so the statistics read
surfaces the storage error as an internal error rather than returning
an empty or zeroed snapshot. -/
theorem stats_read_fresh_store_internal_error :
    getStatisticsHandler initialState.statsRows = StatsResponse.internalError ∧
    ∀ stats : Statistics,
      getStatisticsHandler initialState.statsRows ≠ StatsResponse.ok stats := by
  constructor
  · rfl
  · intro stats h
    exact StatsResponse.noConfusion h

/-- C4: for every candidate passing the size and hex-format checks,
validation succeeds exactly when the verifier accepts the signature
over the byte concatenation pubkey-bytes ++ sanitized-body ++
sanitized-link; an absent (empty) link contributes no bytes to that
message.  `verify` stands for `ed25519.Verify`, which rejects
malformed-but-correctly-sized keys or signatures by returning false
(mapped to the `unauthorized` rejection) — the embedded validator is a
total function, so no input makes it throw. -/
theorem validate_ok_iff_verify_concat (sanitize : ByteStr → ByteStr)
    (verify : ByteStr → ByteStr → ByteStr → Bool) (u : StatusUpdate) (pk sig : ByteStr)
    (hbody : sanitize u.body ≠ [])
    (hblen : (sanitize u.body).length ≤ BodyMaxSize)
    (hllen : (sanitize u.link).length ≤ LinkMaxSize)
    (hpk : u.pubkey.length = PubkeyMaxSize * 2)
    (hsig : u.signature.length = SignatureMaxSize * 2)
    (hdp : hexDecode u.pubkey = some pk)
    (hds : hexDecode u.signature = some sig) :
    (validateStatusUpdate sanitize verify u = Except.ok () ↔
      verify pk (pk ++ sanitize u.body ++ sanitize u.link) sig = true) ∧
    (sanitize u.link = [] →
      pk ++ sanitize u.body ++ sanitize u.link = pk ++ sanitize u.body) := by
  constructor
  · simp only [validateStatusUpdate]
    rw [if_neg hbody, if_neg (Nat.not_lt.mpr hblen),
      if_neg (fun hc => Nat.not_lt.mpr hllen hc.2),
      if_neg (not_not_intro hpk), if_neg (not_not_intro hsig), hdp, hds]
    cases hv : verify pk (pk ++ sanitize u.body ++ sanitize u.link) sig <;>
      rw [List.append_assoc] at hv <;> simp [hv]
  · intro h
    rw [h, List.append_nil]

/-- Witness for C4 at a concrete input: `plainUpdate` (body `hi`, no
link) with the identity sanitizer and an accepting verifier. -/
theorem validate_ok_iff_verify_concat_witness :
    hexDecode plainUpdate.pubkey = some pkA ∧
    hexDecode plainUpdate.signature = some sigA ∧
    (validateStatusUpdate id verifyAccept plainUpdate = Except.ok () ↔
      verifyAccept pkA (pkA ++ id plainUpdate.body ++ id plainUpdate.link) sigA = true) :=
  ⟨by decide, by decide,
    (validate_ok_iff_verify_concat id verifyAccept plainUpdate pkA sigA (by decide) (by decide)
      (by decide) (by decide) (by decide) (by decide) (by decide)).1⟩

/-- Helper: once the two body checks are passed, `validateStatusUpdate`
can no longer produce a body-size rejection. -/
theorem validate_after_body_checks (sanitize : ByteStr → ByteStr)
    (verify : ByteStr → ByteStr → ByteStr → Bool) (u : StatusUpdate)
    (hne : sanitize u.body ≠ []) (hle : ¬ (sanitize u.body).length > BodyMaxSize) :
    validateStatusUpdate sanitize verify u ≠ Except.error ValidationError.bodyEmpty ∧
    validateStatusUpdate sanitize verify u ≠ Except.error ValidationError.bodyTooBig := by
  simp only [validateStatusUpdate]
  rw [if_neg hne, if_neg hle]
  constructor <;>
  · intro h
    repeat' split at h
    all_goals simp_all

/-- C5: validation rejects a candidate whose sanitized body is empty
(`bodyEmpty`) or longer than 256 bytes (`bodyTooBig`); a sanitized body
of exactly 256 bytes passes the body checks (the result, whatever the
later checks yield, is neither body-size rejection), while 257 bytes is
rejected. -/
theorem validate_body_size_policy (sanitize : ByteStr → ByteStr)
    (verify : ByteStr → ByteStr → ByteStr → Bool) (u : StatusUpdate) :
    (sanitize u.body = [] →
      validateStatusUpdate sanitize verify u = Except.error ValidationError.bodyEmpty) ∧
    (sanitize u.body ≠ [] → (sanitize u.body).length > BodyMaxSize →
      validateStatusUpdate sanitize verify u = Except.error ValidationError.bodyTooBig) ∧
    ((sanitize u.body).length = 256 →
      validateStatusUpdate sanitize verify u ≠ Except.error ValidationError.bodyEmpty ∧
      validateStatusUpdate sanitize verify u ≠ Except.error ValidationError.bodyTooBig) ∧
    ((sanitize u.body).length = 257 →
      validateStatusUpdate sanitize verify u = Except.error ValidationError.bodyTooBig) := by
  refine ⟨?_, ?_, ?_, ?_⟩
  · intro h
    simp only [validateStatusUpdate]
    rw [if_pos h]
  · intro h1 h2
    simp only [validateStatusUpdate]
    rw [if_neg h1, if_pos h2]
  · intro h256
    have hne : sanitize u.body ≠ [] := by
      intro he
      rw [he] at h256
      simp at h256
    have hle : ¬ (sanitize u.body).length > BodyMaxSize := by
      rw [h256]
      decide
    exact validate_after_body_checks sanitize verify u hne hle
  · intro h257
    have hne : sanitize u.body ≠ [] := by
      intro he
      rw [he] at h257
      simp at h257
    have hgt : (sanitize u.body).length > BodyMaxSize := by
      rw [h257]
      decide
    simp only [validateStatusUpdate]
    rw [if_neg hne, if_pos hgt]

set_option maxRecDepth 4000 in
/-- Witness for C5 at a concrete input: a 257-byte body is rejected as
too big. -/
theorem validate_body_size_policy_witness :
    (id longBodyUpdate.body).length = 257 ∧
    validateStatusUpdate id verifyAccept longBodyUpdate
      = Except.error ValidationError.bodyTooBig :=
  ⟨by decide,
    (validate_body_size_policy id verifyAccept longBodyUpdate).2.2.2 (by decide)⟩

/-- Helper: each run of `createStatusUpdate` either rejects — then the
whole state change is the failed-counter increment — or admits — then
the whole state change is appending one record carrying the next id
and the request's timestamp and incrementing the success counter. -/
theorem createStatusUpdate_cases (sanitize : ByteStr → ByteStr)
    (verify : ByteStr → ByteStr → ByteStr → Bool) (s : ServerState) (env : RequestEnv) :
    ((createStatusUpdate sanitize verify s env).2.isRejection = true ∧
      (createStatusUpdate sanitize verify s env).1
        = { s with failedRequests := s.failedRequests + 1 }) ∨
    ((createStatusUpdate sanitize verify s env).2.isRejection = false ∧
      ∃ u : StatusUpdate, u.id = s.updates.length + 1 ∧ u.timestamp = env.now ∧
        (createStatusUpdate sanitize verify s env).1
          = { s with updates := s.updates ++ [u],
                     successfulRequests := s.successfulRequests + 1 }) := by
  unfold createStatusUpdate
  split
  · exact Or.inl ⟨rfl, rfl⟩
  · split
    · exact Or.inl ⟨rfl, rfl⟩
    · split
      · exact Or.inl ⟨rfl, rfl⟩
      · split
        · exact Or.inl ⟨rfl, rfl⟩
        · exact Or.inr ⟨rfl, _, rfl, rfl, rfl⟩

/-- C8: whenever `createStatusUpdate` rejects a request — admission
deny, decode failure, validation/signature failure, or storage failure
— the failed-request counter is incremented exactly once and nothing
else changes: the stored updates (hence also the derived per-key post
counts and the next id to be assigned), the success counter, and the
statistics rows are untouched. -/
theorem rejection_increments_failed_only (sanitize : ByteStr → ByteStr)
    (verify : ByteStr → ByteStr → ByteStr → Bool) (s : ServerState) (env : RequestEnv)
    (h : (createStatusUpdate sanitize verify s env).2.isRejection = true) :
    (createStatusUpdate sanitize verify s env).1.failedRequests = s.failedRequests + 1 ∧
    (createStatusUpdate sanitize verify s env).1.updates = s.updates ∧
    pubkeyPostCountsOf (createStatusUpdate sanitize verify s env).1.updates
      = pubkeyPostCountsOf s.updates ∧
    (createStatusUpdate sanitize verify s env).1.successfulRequests = s.successfulRequests ∧
    (createStatusUpdate sanitize verify s env).1.statsRows = s.statsRows ∧
    (createStatusUpdate sanitize verify s env).1.updates.length = s.updates.length := by
  rcases createStatusUpdate_cases sanitize verify s env with ⟨_, hs⟩ | ⟨hr, _⟩
  · rw [hs]
    exact ⟨rfl, rfl, rfl, rfl, rfl, rfl⟩
  · rw [hr] at h
    exact Bool.noConfusion h

/-- Witness for C8 at a concrete input: a rate-limited request against
the fresh state. -/
theorem rejection_increments_failed_only_witness :
    (createStatusUpdate id verifyAccept initialState deniedEnv).2.isRejection = true ∧
    (createStatusUpdate id verifyAccept initialState deniedEnv).1.failedRequests
      = initialState.failedRequests + 1 :=
  ⟨by decide,
    (rejection_increments_failed_only id verifyAccept initialState deniedEnv (by decide)).1⟩

/-- Helper: the pipeline invariant.  Along any serialized request
sequence whose wall-clock readings are non-decreasing, starting from a
state whose stored ids are exactly `1..N` in order, whose record count
equals the success counter, and whose timestamps are non-decreasing and
bounded by the incoming clock readings, these invariants persist. -/
theorem runRequests_invariant (sanitize : ByteStr → ByteStr)
    (verify : ByteStr → ByteStr → ByteStr → Bool) :
    ∀ (envs : List RequestEnv) (s : ServerState),
      s.updates.map StatusUpdate.id = List.range' 1 s.updates.length →
      s.updates.length = s.successfulRequests →
      List.Pairwise (fun a b => a ≤ b) (s.updates.map StatusUpdate.timestamp) →
      (∀ t ∈ s.updates.map StatusUpdate.timestamp, ∀ n ∈ envs.map RequestEnv.now, t ≤ n) →
      List.Pairwise (fun a b => a ≤ b) (envs.map RequestEnv.now) →
      (runRequests sanitize verify s envs).updates.map StatusUpdate.id
          = List.range' 1 (runRequests sanitize verify s envs).updates.length ∧
      (runRequests sanitize verify s envs).updates.length
          = (runRequests sanitize verify s envs).successfulRequests ∧
      List.Pairwise (fun a b => a ≤ b)
          ((runRequests sanitize verify s envs).updates.map StatusUpdate.timestamp) := by
  intro envs
  induction envs with
  | nil =>
    intro s h1 h2 h3 _ _
    exact ⟨h1, h2, h3⟩
  | cons env rest ih =>
    intro s h1 h2 h3 hbound hmono
    rw [List.map_cons] at hbound hmono
    simp only [runRequests]
    rcases createStatusUpdate_cases sanitize verify s env with ⟨_, hs⟩ | ⟨_, u, huid, huts, hs⟩
    · rw [hs]
      exact ih _ h1 h2 h3
        (fun t ht n hn => hbound t ht n (List.mem_cons_of_mem _ hn))
        hmono.of_cons
    · rw [hs]
      have hlen : (s.updates ++ [u]).length = s.updates.length + 1 := by simp
      have h1' : (s.updates ++ [u]).map StatusUpdate.id
          = List.range' 1 (s.updates ++ [u]).length := by
        rw [List.map_append, h1, hlen, List.range'_concat]
        simp [huid, Nat.add_comm]
      have h3' : List.Pairwise (fun a b => a ≤ b)
          ((s.updates ++ [u]).map StatusUpdate.timestamp) := by
        rw [List.map_append, List.pairwise_append]
        refine ⟨h3, List.pairwise_singleton _ _, ?_⟩
        intro a ha b hb
        rw [List.map_singleton, List.mem_singleton] at hb
        subst hb
        rw [huts]
        exact hbound a ha env.now (List.mem_cons_self _ _)
      have hbound' : ∀ t ∈ (s.updates ++ [u]).map StatusUpdate.timestamp,
          ∀ n ∈ rest.map RequestEnv.now, t ≤ n := by
        intro t ht n hn
        rw [List.map_append, List.mem_append] at ht
        rcases ht with ht | ht
        · exact hbound t ht n (List.mem_cons_of_mem _ hn)
        · rw [List.map_singleton, List.mem_singleton] at ht
          subst ht
          rw [huts]
          exact (List.pairwise_cons.mp hmono).1 n hn
      exact ih _ h1' (by simp [h2]) h3' hbound' hmono.of_cons

/-- C9: along every serialized ingestion sequence from the fresh state
whose wall-clock readings are non-decreasing, ids are assigned in
insertion order: the stored ids are exactly `1..N` (no gaps, no
duplicates — in particular the record count `N` equals the number of
successful admissions), and the stored timestamps are non-decreasing in
insertion order. -/
theorem ids_assigned_in_insertion_order (sanitize : ByteStr → ByteStr)
    (verify : ByteStr → ByteStr → ByteStr → Bool) (envs : List RequestEnv)
    (hmono : List.Pairwise (fun a b => a ≤ b) (envs.map RequestEnv.now)) :
    (runRequests sanitize verify initialState envs).updates.map StatusUpdate.id
        = List.range' 1 (runRequests sanitize verify initialState envs).updates.length ∧
    (runRequests sanitize verify initialState envs).updates.length
        = (runRequests sanitize verify initialState envs).successfulRequests ∧
    List.Pairwise (fun a b => a ≤ b)
        ((runRequests sanitize verify initialState envs).updates.map
          StatusUpdate.timestamp) :=
  runRequests_invariant sanitize verify envs initialState rfl rfl List.Pairwise.nil
    (fun _ ht => absurd ht (List.not_mem_nil _)) hmono

/-- Witness for C9 at a concrete input: two admitted submissions at
times 5 and 7 produce ids `[1, 2]`. -/
theorem ids_assigned_in_insertion_order_witness :
    List.Pairwise (fun a b => a ≤ b) ([plainEnvAt5, plainEnvAt7].map RequestEnv.now) ∧
    (runRequests id verifyAccept initialState [plainEnvAt5, plainEnvAt7]).updates.map
        StatusUpdate.id
      = List.range' 1
          (runRequests id verifyAccept initialState [plainEnvAt5, plainEnvAt7]).updates.length :=
  ⟨by decide,
    (ids_assigned_in_insertion_order id verifyAccept [plainEnvAt5, plainEnvAt7] (by decide)).1⟩

end Postshortly
